import Mathlib

/-!
# asclepius-api: the `/predict` pipeline of `src/server.js`

A shallow embedding of `predictClassification`, `postPredictHandler` and the
route `handler` of `src/server.js`.

Modelling conventions.

* Everything outside the repository (TensorFlow, Firestore, the clock,
  `crypto.randomUUID`) is an oracle of the environment `Env`; an oracle that
  can throw returns `Except JsError _`.
* JavaScript numbers coming out of the model are rationals (rounding is not
  modelled); `Math.max()` of no argument is `-Infinity`, so the result of
  `Math.max` lives in `JsNum`.
* `await` is sequencing: the functions are state passing over `World`, which
  holds the Firestore contents and a trace of the effects performed. State
  changes made before a `throw` survive it.
* JavaScript objects whose field set matters (`response.data`) are lists of
  `(key, value)` pairs in insertion order.
-/

namespace Asclepius

/-! ## Values -/

/-- A thrown JavaScript error. -/
structure JsError where
  name : String
  message : String
  deriving DecidableEq, Repr

/-- A JavaScript value that is either `undefined` or a string. -/
inductive JsVal where
  | undefined
  | str (s : String)
  deriving DecidableEq, Repr

/-- A flat JavaScript object: its own enumerable fields in insertion order. -/
abbrev Obj := List (String × JsVal)

/-- The field names of an object. -/
def Obj.keys (o : Obj) : List String := o.map Prod.fst

/-- Property read `o[k]`; an absent field reads as `undefined`. -/
def Obj.get (o : Obj) (k : String) : JsVal :=
  match o.lookup k with
  | some v => v
  | none => JsVal.undefined

/-- A number produced by `Math.max(...score) * 100`: `-Infinity` or a finite value. -/
inductive JsNum where
  | negInf
  | fin (q : ℚ)
  deriving DecidableEq, Repr

/-- The comparison `x > t` against a finite literal. -/
def JsNum.gt (x : JsNum) (t : ℚ) : Bool :=
  match x with
  | JsNum.negInf => false
  | JsNum.fin q => decide (t < q)

/-- The product `x * t` for a positive finite literal `t`. -/
def JsNum.mulPos (x : JsNum) (t : ℚ) : JsNum :=
  match x with
  | JsNum.negInf => JsNum.negInf
  | JsNum.fin q => JsNum.fin (q * t)

/-- The two-argument maximum that `Math.max` folds with. -/
def JsNum.max2 (x : JsNum) (q : ℚ) : JsNum :=
  match x with
  | JsNum.negInf => JsNum.fin q
  | JsNum.fin a => JsNum.fin (if a < q then q else a)

/-- JavaScript `Math.max(...score)`: the largest argument, `-Infinity` when there is none. -/
def mathMax (score : List ℚ) : JsNum :=
  score.foldl JsNum.max2 JsNum.negInf

/-- Scan of `argMaxIdx`: `best`/`bestIdx` is the running maximum and its index,
`i` the index of the head of the remaining values; a later value replaces the
running maximum only when it is strictly larger. -/
def argMaxFrom (best : ℚ) (bestIdx i : Nat) : List ℚ → Nat
  | [] => bestIdx
  | x :: xs => if best < x then argMaxFrom x i (i + 1) xs else argMaxFrom best bestIdx (i + 1) xs

/-- Index of the maximum of a non-empty row, the lowest such index on ties. -/
def argMaxIdx : List ℚ → Nat
  | [] => 0
  | x :: xs => argMaxFrom x 0 1 xs

/-- TensorFlow `tf.argMax(prediction, 1).dataSync()[0]` for a prediction of shape `[1, n]`:
the lowest index holding the maximum of the row; a reduction over an empty
axis is rejected by TensorFlow. -/
def argMax (score : List ℚ) : Except JsError Nat :=
  match score with
  | [] => Except.error ⟨"Error", "Reduction axis 1 is empty"⟩
  | _ :: _ => Except.ok (argMaxIdx score)

/-! ## Environment and world -/

/-- An uploaded file as hapi hands it to the handler: a buffer of bytes. -/
abbrev Buffer := List Nat

/-- A tensor, opaque to the server code: its flat values. -/
abbrev Tensor := List ℚ

/-- The Firestore database: collection name, then document id. -/
abbrev Store := String → String → Option Obj

/-- Firestore `doc.set(data)`: the document at `(coll, key)` becomes `data`. -/
def Store.set (s : Store) (coll key : String) (data : Obj) : Store :=
  fun c k => if c = coll ∧ k = key then some data else s c k

/-- The observable effects of a request, in the order they happen: a call of
`crypto.randomUUID()` with its result, of `tf.node.decodeJpeg(image)`, of
`model.predict(tensor)`, of `db.collection(coll).doc(key).set(data)` (accepted
or not), and of `console.error(e)`. -/
inductive Event where
  | randomUUID (id : String)
  | decodeJpeg (image : Option Buffer)
  | modelPredict
  | docSet (coll key : String) (data : Obj)
  | consoleError (e : JsError)
  deriving DecidableEq, Repr

/-- What the server code does not control. -/
structure Env where
  /-- the chain `tf.node.decodeJpeg(image).resizeNearestNeighbor([224, 224]).expandDims().toFloat()` -/
  decodeJpeg : Buffer → Except JsError Tensor
  /-- the call `model.predict(tensor)` followed by `prediction.data()`: the row of scores -/
  predict : Tensor → Except JsError (List ℚ)
  /-- the value `crypto.randomUUID()` returns -/
  randomUUID : String
  /-- the value `new Date().toISOString()` returns -/
  now : String
  /-- whether `docRef.set(data)` on `(collection, id)` is rejected, and with what -/
  setError : String → String → Obj → Option JsError

/-- The mutable world: Firestore and the trace of effects so far. -/
structure World where
  store : Store
  trace : List Event

/-- Append an event to the trace. -/
def World.emit (w : World) (e : Event) : World :=
  { w with trace := w.trace ++ [e] }

/-! ## `predictClassification` (server.js 15-42) -/

/-- The object `{ confidenceScore, label, suggestion }`. -/
structure Classification where
  confidenceScore : JsNum
  label : Option String
  suggestion : Option String
  deriving DecidableEq, Repr

/-- The fixed class list of line 26. -/
def classes : List String := ["Cancer", "Non Cancer"]

/-- Lines 31-39: `let suggestion;` then the two independent `if`s. -/
def suggestionOf (label : Option String) : Option String :=
  let s0 : Option String := none
  let s1 := if label = some "Cancer" then some "Segera periksa ke dokter!" else s0
  let s2 := if label = some "Non Cancer" then some "Tidak perlu periksa ke dokter!" else s1
  s2

/-- Lines 24-41: what `predictClassification` computes from the row of scores. -/
def classify (score : List ℚ) : Except JsError Classification :=
  let confidenceScore := (mathMax score).mulPos 100
  match argMax score with
  | Except.error e => Except.error e
  | Except.ok classResult =>
    let label := classes.get? classResult
    Except.ok { confidenceScore := confidenceScore, label := label, suggestion := suggestionOf label }

/-- The function `predictClassification(model, image)`; `image` is `none` when the
caller passes `undefined`, which `decodeJpeg` rejects. -/
def predictClassification (env : Env) (image : Option Buffer) (w : World) :
    Except JsError Classification × World :=
  let w1 := w.emit (Event.decodeJpeg image)
  match image with
  | none => (Except.error ⟨"TypeError", "decodeJpeg: image is undefined"⟩, w1)
  | some bytes =>
    match env.decodeJpeg bytes with
    | Except.error e => (Except.error e, w1)
    | Except.ok tensor =>
      let w2 := w1.emit Event.modelPredict
      match env.predict tensor with
      | Except.error e => (Except.error e, w2)
      | Except.ok score => (classify score, w2)

/-! ## `postPredictHandler` (server.js 44-68) -/

/-- The parsed multipart payload; `image` is `none` when the field is absent. -/
structure Payload where
  image : Option Buffer

/-- The hapi request as far as the server code reads it. -/
structure Request where
  payload : Payload

/-- A response body: `{ status, message }` and, on success, `data`. -/
structure Body where
  status : String
  message : String
  data : Option Obj
  deriving DecidableEq, Repr

/-- A string-or-undefined as a JavaScript value. -/
def JsVal.ofOption : Option String → JsVal
  | none => JsVal.undefined
  | some s => JsVal.str s

/-- Line 54: the message chosen from the confidence score. -/
def messageOf (confidenceScore : JsNum) : String :=
  if confidenceScore.gt 99 then "Model is predicted successfully."
  else "Model is predicted successfully but under threshold. Please use the correct picture"

/-- Lines 55-60: the object literal bound to `response.data`. -/
def responseData (predictionID : String) (c : Classification) (createdAt : String) : Obj :=
  [("id", JsVal.str predictionID),
   ("result", JsVal.ofOption c.label),
   ("suggestion", JsVal.ofOption c.suggestion),
   ("createdAt", JsVal.str createdAt)]

/-- The function `postPredictHandler(request, predictionID)`. -/
def postPredictHandler (env : Env) (request : Request) (predictionID : String) (w : World) :
    Except JsError Body × World :=
  let image := request.payload.image
  match predictClassification env image w with
  | (Except.error e, w1) => (Except.error e, w1)
  | (Except.ok c, w1) =>
    let createdAt := env.now
    let data := responseData predictionID c createdAt
    let response : Body :=
      { status := "success", message := messageOf c.confidenceScore, data := some data }
    let w2 := w1.emit (Event.docSet "predictions" predictionID data)
    match env.setError "predictions" predictionID data with
    | some e => (Except.error e, w2)
    | none => (Except.ok response, { w2 with store := w2.store.set "predictions" predictionID data })

/-! ## The route (server.js 89-129) -/

/-- An HTTP response: `h.response(body).code(code)`. -/
structure HttpResponse where
  code : Nat
  body : Body
  deriving DecidableEq, Repr

/-- Lines 99-101: the Joi schema `object({ image: any().required() }).unknown()`
accepts a payload exactly when it has an `image` field. -/
def validatePayload (p : Payload) : Bool := p.image.isSome

/-- The body of the `try` block of the route handler (lines 106-120). -/
def handlerTry (env : Env) (request : Request) (w : World) : Except JsError HttpResponse × World :=
  match request.payload.image with
  | none =>
    (Except.error ⟨"TypeError", "Cannot read properties of undefined (reading length)"⟩, w)
  | some image =>
    if image.length > 1000000 then
      (Except.ok
        { code := 413,
          body := { status := "fail",
                    message := "Payload content length greater than maximum allowed: 1000000",
                    data := none } }, w)
    else
      let predictionID := env.randomUUID
      let w1 := w.emit (Event.randomUUID predictionID)
      match postPredictHandler env request predictionID w1 with
      | (Except.error e, w2) => (Except.error e, w2)
      | (Except.ok response, w2) => (Except.ok { code := 201, body := response }, w2)

/-- The route handler (lines 104-128): the `try` block and its `catch`. -/
def handler (env : Env) (request : Request) (w : World) : HttpResponse × World :=
  match handlerTry env request w with
  | (Except.ok r, w1) => (r, w1)
  | (Except.error e, w1) =>
    ({ code := 400,
       body := { status := "fail",
                 message := "Terjadi kesalahan dalam melakukan prediksi",
                 data := none } },
     w1.emit (Event.consoleError e))

/-- Whether an event is a Firestore write. -/
def Event.isDocSet : Event → Bool
  | Event.docSet _ _ _ => true
  | _ => false

/-! ## Concrete inputs used to evaluate the definitions -/

/-- A world with an empty database and no effect performed yet. -/
def emptyWorld : World := { store := fun _ _ => none, trace := [] }

/-- An environment in which every image decodes and the model answers `score`. -/
def envWith (score : List ℚ) : Env :=
  { decodeJpeg := fun _ => Except.ok [],
    predict := fun _ => Except.ok score,
    randomUUID := "7c9e6679-7425-40de-944b-e07fc1f90ae7",
    now := "2024-06-01T10:00:00.000Z",
    setError := fun _ _ _ => none }

/-- The environment `envWith score` with Firestore rejecting every write. -/
def envOutage (score : List ℚ) : Env :=
  { envWith score with setError := fun _ _ _ => some ⟨"Error", "14 UNAVAILABLE"⟩ }

/-- A request carrying a two-byte image. -/
def smallRequest : Request := { payload := { image := some [255, 216] } }

/-- A request carrying an image of 1000001 bytes. -/
def bigRequest : Request := { payload := { image := some (List.replicate 1000001 0) } }

/-- A request whose payload has no `image` field. -/
def noImageRequest : Request := { payload := { image := none } }

/-! ## Shared lemmas -/

theorem mathMax_foldl_fin (xs : List ℚ) (a : ℚ) :
    ∃ q, xs.foldl JsNum.max2 (JsNum.fin a) = JsNum.fin q := by
  induction xs generalizing a with
  | nil => exact ⟨a, rfl⟩
  | cons x xs ih => simpa [List.foldl, JsNum.max2] using ih _

theorem classify_ok_fin {score : List ℚ} {c : Classification} (h : classify score = Except.ok c) :
    ∃ q, c.confidenceScore = JsNum.fin q := by
  cases score with
  | nil => simp [classify, argMax] at h
  | cons x xs =>
    simp only [classify, argMax] at h
    injection h with h
    subst h
    obtain ⟨q, hq⟩ := mathMax_foldl_fin xs x
    exact ⟨q * 100, by simp [mathMax, List.foldl, JsNum.max2, hq, JsNum.mulPos]⟩

theorem classify_ok_suggestion {score : List ℚ} {c : Classification}
    (h : classify score = Except.ok c) : c.suggestion = suggestionOf c.label := by
  cases score with
  | nil => simp [classify, argMax] at h
  | cons x xs =>
    simp only [classify, argMax] at h
    injection h with h
    subst h
    rfl

theorem classify_pair (p0 p1 : ℚ) :
    classify [p0, p1] = Except.ok
      { confidenceScore := JsNum.fin ((if p0 < p1 then p1 else p0) * 100),
        label := classes.get? (if p0 < p1 then 1 else 0),
        suggestion := suggestionOf (classes.get? (if p0 < p1 then 1 else 0)) } := by
  by_cases h : p0 < p1 <;>
    simp [classify, argMax, argMaxIdx, argMaxFrom, mathMax, JsNum.max2, JsNum.mulPos, h]

/-- Inversion of a returning `predictClassification`. -/
theorem predictClassification_ok {env : Env} {image : Option Buffer} {w w1 : World}
    {c : Classification} (h : predictClassification env image w = (Except.ok c, w1)) :
    ∃ bytes tensor score, image = some bytes ∧ env.decodeJpeg bytes = Except.ok tensor ∧
      env.predict tensor = Except.ok score ∧ classify score = Except.ok c ∧
      w1 = (w.emit (Event.decodeJpeg image)).emit Event.modelPredict := by
  unfold predictClassification at h
  cases image with
  | none => simp at h
  | some bytes =>
    simp only at h
    cases hd : env.decodeJpeg bytes with
    | error e => simp [hd] at h
    | ok tensor =>
      simp only [hd] at h
      cases hp : env.predict tensor with
      | error e => simp [hp] at h
      | ok score =>
        simp only [hp] at h
        obtain ⟨h1, h2⟩ := Prod.mk.inj h
        exact ⟨bytes, tensor, score, rfl, hd, hp, h1, h2.symm⟩

/-- The result of `predictClassification` does not depend on the world. -/
theorem predictClassification_fst (env : Env) (image : Option Buffer) (w w0 : World) :
    (predictClassification env image w).1 = (predictClassification env image w0).1 := by
  unfold predictClassification
  cases image with
  | none => rfl
  | some bytes =>
    simp only
    cases env.decodeJpeg bytes with
    | error e => rfl
    | ok tensor =>
      simp only
      cases env.predict tensor with
      | error e => rfl
      | ok score => rfl

/-- Inversion of a returning `postPredictHandler`. -/
theorem postPredictHandler_ok {env : Env} {request : Request} {predictionID : String}
    {w w2 : World} {response : Body}
    (h : postPredictHandler env request predictionID w = (Except.ok response, w2)) :
    ∃ c w1, predictClassification env request.payload.image w = (Except.ok c, w1) ∧
      env.setError "predictions" predictionID (responseData predictionID c env.now) = none ∧
      response = { status := "success", message := messageOf c.confidenceScore,
                   data := some (responseData predictionID c env.now) } ∧
      w2 = { store := w1.store.set "predictions" predictionID (responseData predictionID c env.now),
             trace := w1.trace ++
               [Event.docSet "predictions" predictionID (responseData predictionID c env.now)] } := by
  unfold postPredictHandler at h
  simp only at h
  split at h
  · simp at h
  · rename_i c w1 hpc
    split at h
    · simp at h
    · rename_i hset
      obtain ⟨h1, h2⟩ := Prod.mk.inj h
      injection h1 with h1
      exact ⟨c, w1, hpc, hset, h1.symm, h2.symm⟩

/-- Evaluation of a returning `predictClassification`. -/
theorem predictClassification_eval {env : Env} {image : Option Buffer} {w0 : World}
    {c : Classification} (h : (predictClassification env image w0).1 = Except.ok c) (w : World) :
    predictClassification env image w =
      (Except.ok c, { store := w.store,
                      trace := w.trace ++ [Event.decodeJpeg image, Event.modelPredict] }) := by
  have h0 : predictClassification env image w0
      = (Except.ok c, (predictClassification env image w0).2) := by
    rw [← h]
  obtain ⟨bytes, tensor, score, himg, hd, hp, hc, -⟩ := predictClassification_ok h0
  subst himg
  simp [predictClassification, hd, hp, hc, World.emit]

/-- Evaluation of `postPredictHandler` when classification and write succeed. -/
theorem postPredictHandler_eval (env : Env) (request : Request) (w0 : World)
    (c : Classification) (predictionID : String)
    (h : (predictClassification env request.payload.image w0).1 = Except.ok c)
    (hset : env.setError "predictions" predictionID (responseData predictionID c env.now) = none)
    (w : World) :
    postPredictHandler env request predictionID w =
      (Except.ok { status := "success", message := messageOf c.confidenceScore,
                   data := some (responseData predictionID c env.now) },
       { store := w.store.set "predictions" predictionID (responseData predictionID c env.now),
         trace := w.trace ++ [Event.decodeJpeg request.payload.image, Event.modelPredict,
           Event.docSet "predictions" predictionID (responseData predictionID c env.now)] }) := by
  simp [postPredictHandler, predictClassification_eval h w, hset, World.emit]

/-- Evaluation of the handler when the whole pipeline succeeds. -/
theorem handler_eval (env : Env) (request : Request) (w0 : World) (image : Buffer)
    (c : Classification)
    (himg : request.payload.image = some image) (hlen : image.length ≤ 1000000)
    (hpc : (predictClassification env (some image) w0).1 = Except.ok c)
    (hset : env.setError "predictions" env.randomUUID
      (responseData env.randomUUID c env.now) = none) (w : World) :
    handler env request w =
      ({ code := 201,
         body := { status := "success", message := messageOf c.confidenceScore,
                   data := some (responseData env.randomUUID c env.now) } },
       { store := w.store.set "predictions" env.randomUUID
           (responseData env.randomUUID c env.now),
         trace := w.trace ++ [Event.randomUUID env.randomUUID, Event.decodeJpeg (some image),
           Event.modelPredict,
           Event.docSet "predictions" env.randomUUID (responseData env.randomUUID c env.now)] }) := by
  have hnot : ¬ image.length > 1000000 := not_lt.mpr hlen
  rw [← himg] at hpc
  simp only [handler, handlerTry, himg, hnot, if_false]
  rw [← himg, postPredictHandler_eval env request w0 c env.randomUUID hpc hset]
  simp [World.emit, himg]

/-- Inversion of a 201 answer: the image was present and small enough, the
classification returned and the write was accepted. -/
theorem handler_201_inv {env : Env} {request : Request} {w : World}
    (h : (handler env request w).1.code = 201) :
    ∃ image c, request.payload.image = some image ∧ image.length ≤ 1000000 ∧
      (predictClassification env (some image) w).1 = Except.ok c ∧
      env.setError "predictions" env.randomUUID (responseData env.randomUUID c env.now) = none := by
  unfold handler handlerTry at h
  cases himg : request.payload.image with
  | none => simp [himg] at h
  | some image =>
    simp only [himg] at h
    by_cases hlen : image.length > 1000000
    · simp [hlen] at h
    · simp only [hlen, if_false] at h
      cases hp : postPredictHandler env request env.randomUUID
          (w.emit (Event.randomUUID env.randomUUID)) with
      | mk r w2 =>
        cases r with
        | error e => simp [hp] at h
        | ok response =>
          obtain ⟨c, w1, hpc, hset, -, -⟩ := postPredictHandler_ok hp
          rw [himg] at hpc
          refine ⟨image, c, rfl, not_lt.mp hlen, ?_, hset⟩
          rw [predictClassification_fst env (some image) w
            (w.emit (Event.randomUUID env.randomUUID)), hpc]

/-- Evaluation of `predictClassification` for the model output `[1, 0]`. -/
theorem predictClassification_one_zero :
    (predictClassification (envWith [1, 0]) (some [255, 216]) emptyWorld).1
      = Except.ok { confidenceScore := JsNum.fin 100, label := some "Cancer",
                    suggestion := some "Segera periksa ke dokter!" } := by
  norm_num [predictClassification, envWith, classify_pair, classes, suggestionOf]
  decide

/-- Evaluation of `predictClassification` for the model output `[0, 1]`. -/
theorem predictClassification_zero_one :
    (predictClassification (envWith [0, 1]) (some [255, 216]) emptyWorld).1
      = Except.ok { confidenceScore := JsNum.fin 100, label := some "Non Cancer",
                    suggestion := some "Tidak perlu periksa ke dokter!" } := by
  norm_num [predictClassification, envWith, classify_pair, classes, suggestionOf]

/-! ## Message selection -/

/-- C1: in every run of `postPredictHandler` that returns, the classification
returned by `predictClassification` has a finite confidence score `q`, the
message is "Model is predicted successfully." exactly when `q > 99`, and it is
the under-threshold message whenever `q <= 99` (99 itself included). -/
theorem postPredictHandler_message_threshold (env : Env) (request : Request)
    (predictionID : String) (w w2 : World) (response : Body)
    (h : postPredictHandler env request predictionID w = (Except.ok response, w2)) :
    ∃ c q, (predictClassification env request.payload.image w).1 = Except.ok c ∧
      c.confidenceScore = JsNum.fin q ∧
      (response.message = "Model is predicted successfully." ↔ 99 < q) ∧
      (q ≤ 99 → response.message =
        "Model is predicted successfully but under threshold. Please use the correct picture") := by
  obtain ⟨c, w1, hpc, -, hresp, -⟩ := postPredictHandler_ok h
  obtain ⟨bytes, tensor, score, -, -, -, hcls, -⟩ := predictClassification_ok hpc
  obtain ⟨q, hq⟩ := classify_ok_fin hcls
  refine ⟨c, q, by rw [hpc], hq, ?_, ?_⟩
  · subst hresp
    by_cases hlt : 99 < q <;> simp [messageOf, hq, JsNum.gt, hlt]
  · intro hle
    subst hresp
    simp [messageOf, hq, JsNum.gt, not_lt.mpr hle]

/-- Evaluation of C1 at the boundary: a model answering `[99/100, 1/100]` gives
confidence score exactly 99 and the under-threshold message. -/
theorem postPredictHandler_message_threshold_witness :
    (postPredictHandler (envWith [99/100, 1/100]) smallRequest "id-1" emptyWorld).1
        = Except.ok
          { status := "success",
            message :=
              "Model is predicted successfully but under threshold. Please use the correct picture",
            data := some (responseData "id-1"
              { confidenceScore := JsNum.fin 99, label := some "Cancer",
                suggestion := some "Segera periksa ke dokter!" }
              "2024-06-01T10:00:00.000Z") } ∧
      ∃ c q, (predictClassification (envWith [99/100, 1/100]) smallRequest.payload.image
          emptyWorld).1 = Except.ok c ∧
        c.confidenceScore = JsNum.fin q ∧
        (("Model is predicted successfully but under threshold. Please use the correct picture"
            = "Model is predicted successfully.") ↔ 99 < q) ∧
        (q ≤ 99 →
          "Model is predicted successfully but under threshold. Please use the correct picture" =
          "Model is predicted successfully but under threshold. Please use the correct picture") := by
  have hpc : (predictClassification (envWith [99/100, 1/100]) smallRequest.payload.image
      emptyWorld).1 =
        Except.ok ⟨JsNum.fin 99, some "Cancer", some "Segera periksa ke dokter!"⟩ := by
    norm_num [predictClassification, envWith, smallRequest, classify_pair, classes, suggestionOf]
    decide
  have hmsg : messageOf (JsNum.fin 99) =
      "Model is predicted successfully but under threshold. Please use the correct picture" := by
    norm_num [messageOf, JsNum.gt]
  have hrun := postPredictHandler_eval (envWith [99/100, 1/100]) smallRequest emptyWorld _ "id-1"
    hpc rfl emptyWorld
  rw [hmsg] at hrun
  exact ⟨by rw [hrun]; rfl, postPredictHandler_message_threshold _ _ _ _ _ _ hrun⟩

/-! ## Suggestions -/

/-- C2, as stated, fails: for the model output `[1, 0]` the label is "Cancer" and
the suggestion returned is "Segera periksa ke dokter!", not
"Immediate medical consultation advised.". -/
theorem predictClassification_suggestion_not_english :
    (predictClassification (envWith [1, 0]) (some [255, 216]) emptyWorld).1
        = Except.ok { confidenceScore := JsNum.fin 100, label := some "Cancer",
                      suggestion := some "Segera periksa ke dokter!" } ∧
      (some "Segera periksa ke dokter!" : Option String)
        ≠ some "Immediate medical consultation advised." := by
  exact ⟨predictClassification_one_zero, by decide⟩

/-- C2 amended: whenever `predictClassification` returns, a label "Cancer" comes
with the suggestion "Segera periksa ke dokter!" and a label "Non Cancer" with
"Tidak perlu periksa ke dokter!". -/
theorem predictClassification_suggestion (env : Env) (image : Option Buffer) (w : World)
    (c : Classification) (h : (predictClassification env image w).1 = Except.ok c) :
    (c.label = some "Cancer" → c.suggestion = some "Segera periksa ke dokter!") ∧
      (c.label = some "Non Cancer" → c.suggestion = some "Tidak perlu periksa ke dokter!") := by
  have hpc : predictClassification env image w
      = (Except.ok c, (predictClassification env image w).2) := by
    rw [← h]
  obtain ⟨bytes, tensor, score, -, -, -, hcls, -⟩ := predictClassification_ok hpc
  rw [classify_ok_suggestion hcls]
  constructor
  · intro hl
    rw [hl]
    decide
  · intro hl
    rw [hl]
    decide

/-- Evaluation of the amended C2 for the model output `[1/4, 3/4]`: label
"Non Cancer", suggestion "Tidak perlu periksa ke dokter!". -/
theorem predictClassification_suggestion_witness :
    (predictClassification (envWith [1/4, 3/4]) (some [255, 216]) emptyWorld).1
        = Except.ok { confidenceScore := JsNum.fin 75, label := some "Non Cancer",
                      suggestion := some "Tidak perlu periksa ke dokter!" } ∧
      ((some "Non Cancer" : Option String) = some "Non Cancer" →
        (some "Tidak perlu periksa ke dokter!" : Option String)
          = some "Tidak perlu periksa ke dokter!") := by
  have hrun : (predictClassification (envWith [1/4, 3/4]) (some [255, 216]) emptyWorld).1
      = Except.ok { confidenceScore := JsNum.fin 75, label := some "Non Cancer",
                    suggestion := some "Tidak perlu periksa ke dokter!" } := by
    norm_num [predictClassification, envWith, classify_pair, classes, suggestionOf]
  exact ⟨hrun, (predictClassification_suggestion _ _ _ _ hrun).2⟩

/-! ## The size guard -/

/-- C3: when the image is longer than 1000000 bytes the handler answers 413 with
the fixed fail body and leaves the world (database and effect trace) exactly as
it was, so no identifier was generated, nothing was decoded or predicted and
nothing was written; when the image is at most 1000000 bytes long the status
code is never 413. -/
theorem handler_size_guard (env : Env) (request : Request) (w : World) (image : Buffer)
    (himg : request.payload.image = some image) :
    (image.length > 1000000 →
        handler env request w =
          ({ code := 413,
             body := { status := "fail",
                       message := "Payload content length greater than maximum allowed: 1000000",
                       data := none } }, w)) ∧
      (image.length ≤ 1000000 → (handler env request w).1.code ≠ 413) := by
  constructor
  · intro hlen
    simp [handler, handlerTry, himg, hlen]
  · intro hlen
    have hnot : ¬ image.length > 1000000 := not_lt.mpr hlen
    simp only [handler, handlerTry, himg, hnot, if_false]
    cases hp : postPredictHandler env request env.randomUUID
        (w.emit (Event.randomUUID env.randomUUID)) with
    | mk r w2 =>
      cases r with
      | error e => simp
      | ok response => simp

/-- Evaluation of C3 on an image of 1000001 bytes (413, world untouched) and on an
image of 2 bytes (not 413). -/
theorem handler_size_guard_witness :
    handler (envWith [1, 0]) bigRequest emptyWorld =
        ({ code := 413,
           body := { status := "fail",
                     message := "Payload content length greater than maximum allowed: 1000000",
                     data := none } }, emptyWorld) ∧
      (handler (envWith [1, 0]) smallRequest emptyWorld).1.code ≠ 413 :=
  ⟨(handler_size_guard (envWith [1, 0]) bigRequest emptyWorld (List.replicate 1000001 0) rfl).1
      (by rw [List.length_replicate]; decide),
   (handler_size_guard (envWith [1, 0]) smallRequest emptyWorld [255, 216] rfl).2 (by decide)⟩

/-! ## Failures of the pipeline -/

/-- C4: for an image of at most 1000000 bytes, if decoding/preprocessing throws,
or the model prediction throws, or the Firestore write is rejected, the handler
answers 400 with the body `status = "fail"`, the one fixed message and no data:
the answer is the same constant whatever the error, and is never 201. -/
theorem handler_pipeline_failure (env : Env) (request : Request) (w : World) (image : Buffer)
    (himg : request.payload.image = some image) (hlen : image.length ≤ 1000000)
    (hfail : (∃ e, env.decodeJpeg image = Except.error e) ∨
      (∃ t e, env.decodeJpeg image = Except.ok t ∧ env.predict t = Except.error e) ∨
      (∃ t score c e, env.decodeJpeg image = Except.ok t ∧ env.predict t = Except.ok score ∧
        classify score = Except.ok c ∧
        env.setError "predictions" env.randomUUID (responseData env.randomUUID c env.now)
          = some e)) :
    (handler env request w).1 =
        { code := 400,
          body := { status := "fail",
                    message := "Terjadi kesalahan dalam melakukan prediksi",
                    data := none } } ∧
      (handler env request w).1.code ≠ 201 := by
  have hnot : ¬ image.length > 1000000 := not_lt.mpr hlen
  have key : (handler env request w).1 =
      { code := 400,
        body := { status := "fail",
                  message := "Terjadi kesalahan dalam melakukan prediksi",
                  data := none } } := by
    rcases hfail with ⟨e, hd⟩ | ⟨t, e, hd, hp⟩ | ⟨t, score, c, e, hd, hp, hc, hs⟩
    · simp [handler, handlerTry, postPredictHandler, predictClassification, himg, hnot, hd]
    · simp [handler, handlerTry, postPredictHandler, predictClassification, himg, hnot, hd, hp]
    · simp [handler, handlerTry, postPredictHandler, predictClassification, himg, hnot, hd, hp,
        hc, hs]
  exact ⟨key, by rw [key]; decide⟩

/-- Evaluation of C4 under a store outage: the model answers, Firestore rejects
the write, the handler answers 400 with the generic body. -/
theorem handler_pipeline_failure_witness :
    (handler (envOutage [1, 0]) smallRequest emptyWorld).1 =
        { code := 400,
          body := { status := "fail",
                    message := "Terjadi kesalahan dalam melakukan prediksi",
                    data := none } } ∧
      (handler (envOutage [1, 0]) smallRequest emptyWorld).1.code ≠ 201 :=
  handler_pipeline_failure (envOutage [1, 0]) smallRequest emptyWorld [255, 216] rfl (by decide)
    (Or.inr (Or.inr ⟨[], [1, 0], _, ⟨"Error", "14 UNAVAILABLE"⟩, rfl, rfl, classify_pair 1 0, rfl⟩))

/-! ## Missing image -/

/-- C5, as stated, fails: on a payload without an `image` field the handler
answers 400, not 413. -/
theorem handler_missing_image_not_413 :
    (handler (envWith [1, 0]) noImageRequest emptyWorld).1.code = 400 ∧
      (handler (envWith [1, 0]) noImageRequest emptyWorld).1.code ≠ 413 := by
  constructor <;> simp [handler, handlerTry, noImageRequest]

/-- C5 amended: a payload without an `image` field is rejected by the payload
schema of the route, and the handler, when run on it, throws on `image.length`
inside its `try`, logs the error and answers 400 with the generic fail body,
touching neither the identifier generator, the model nor the database. -/
theorem handler_missing_image (env : Env) (request : Request) (w : World)
    (himg : request.payload.image = none) :
    validatePayload request.payload = false ∧
      ∃ e, handler env request w =
        ({ code := 400,
           body := { status := "fail",
                     message := "Terjadi kesalahan dalam melakukan prediksi",
                     data := none } },
         { store := w.store, trace := w.trace ++ [Event.consoleError e] }) := by
  refine ⟨by simp [validatePayload, himg], ?_⟩
  exact ⟨_, by simp [handler, handlerTry, himg, World.emit]; rfl⟩

/-- Evaluation of the amended C5 on the request without image. -/
theorem handler_missing_image_witness :
    validatePayload noImageRequest.payload = false ∧
      ∃ e, handler (envWith [1, 0]) noImageRequest emptyWorld =
        ({ code := 400,
           body := { status := "fail",
                     message := "Terjadi kesalahan dalam melakukan prediksi",
                     data := none } },
         { store := emptyWorld.store, trace := emptyWorld.trace ++ [Event.consoleError e] }) :=
  handler_missing_image (envWith [1, 0]) noImageRequest emptyWorld rfl

/-! ## The successful request -/

/-- C6: for an image of at most 1000000 bytes on which `predictClassification`
returns `c` and the Firestore write is accepted, the handler answers 201 with a
body of status "success" whose `data` has exactly the fields `id`, `result`,
`suggestion`, `createdAt`; `data.result` is the string that is the label of `c`
and `data.suggestion` the string that is the suggestion of `c` (each `undefined`
only when `c` has none), and `data.id` is the string returned by
`crypto.randomUUID()`, generated by the handler before decoding, prediction and
the write (it is the first effect of the run and does not depend on the
request). -/
theorem handler_success (env : Env) (request : Request) (w w0 : World) (image : Buffer)
    (c : Classification)
    (himg : request.payload.image = some image) (hlen : image.length ≤ 1000000)
    (hpc : (predictClassification env (some image) w0).1 = Except.ok c)
    (hset : env.setError "predictions" env.randomUUID
      (responseData env.randomUUID c env.now) = none) :
    ∃ message data w2,
      handler env request w =
        ({ code := 201, body := { status := "success", message := message, data := some data } },
         w2) ∧
      data.keys = ["id", "result", "suggestion", "createdAt"] ∧
      (∀ s, c.label = some s → data.get "result" = JsVal.str s) ∧
      (c.label = none → data.get "result" = JsVal.undefined) ∧
      (∀ s, c.suggestion = some s → data.get "suggestion" = JsVal.str s) ∧
      (c.suggestion = none → data.get "suggestion" = JsVal.undefined) ∧
      data.get "id" = JsVal.str env.randomUUID ∧
      data.get "createdAt" = JsVal.str env.now ∧
      w2.trace = w.trace ++ [Event.randomUUID env.randomUUID, Event.decodeJpeg (some image),
        Event.modelPredict, Event.docSet "predictions" env.randomUUID data] := by
  refine ⟨_, _, _, handler_eval env request w0 image c himg hlen hpc hset w, rfl,
    ?_, ?_, ?_, ?_, rfl, rfl, rfl⟩
  · intro s hs
    simp [responseData, Obj.get, List.lookup, hs, JsVal.ofOption]
  · intro hs
    simp [responseData, Obj.get, List.lookup, hs, JsVal.ofOption]
  · intro s hs
    simp [responseData, Obj.get, List.lookup, hs, JsVal.ofOption]
  · intro hs
    simp [responseData, Obj.get, List.lookup, hs, JsVal.ofOption]

/-- Evaluation of C6 for the model output `[1, 0]`: the answer is 201 and its
data carries the strings "Cancer" and "Segera periksa ke dokter!" under the
generated identifier. -/
theorem handler_success_witness :
    ∃ message data w2,
      handler (envWith [1, 0]) smallRequest emptyWorld =
        ({ code := 201, body := { status := "success", message := message, data := some data } },
         w2) ∧
      data.keys = ["id", "result", "suggestion", "createdAt"] ∧
      data.get "result" = JsVal.str "Cancer" ∧
      data.get "suggestion" = JsVal.str "Segera periksa ke dokter!" ∧
      data.get "id" = JsVal.str "7c9e6679-7425-40de-944b-e07fc1f90ae7" ∧
      data.get "createdAt" = JsVal.str "2024-06-01T10:00:00.000Z" ∧
      w2.trace = emptyWorld.trace ++ [Event.randomUUID "7c9e6679-7425-40de-944b-e07fc1f90ae7",
        Event.decodeJpeg (some [255, 216]), Event.modelPredict,
        Event.docSet "predictions" "7c9e6679-7425-40de-944b-e07fc1f90ae7" data] := by
  obtain ⟨message, data, w2, hrun, hkeys, hres, -, hsug, -, hid, hat, htr⟩ :=
    handler_success (envWith [1, 0]) smallRequest emptyWorld emptyWorld [255, 216]
      ⟨JsNum.fin 100, some "Cancer", some "Segera periksa ke dokter!"⟩
      rfl (by decide) predictClassification_one_zero rfl
  exact ⟨message, data, w2, hrun, hkeys, hres "Cancer" rfl,
    hsug "Segera periksa ke dokter!" rfl, hid, hat, htr⟩

/-! ## Label and confidence from a two-class output -/

/-- C7: when the model answers the two scores `[p0, p1]`, `predictClassification`
returns confidence score `100 * max p0 p1` and the label `classes[i]`, where `i`
is the lowest index at which the row attains its maximum; on a tie `p0 = p1`
the label is "Cancer"; the confidence score is 100 times the score at the index
of the returned label. -/
theorem predictClassification_argmax (env : Env) (image : Buffer) (w : World) (t : Tensor)
    (p0 p1 : ℚ) (hdec : env.decodeJpeg image = Except.ok t)
    (hpred : env.predict t = Except.ok [p0, p1]) :
    ∃ c i, (predictClassification env (some image) w).1 = Except.ok c ∧
      c.confidenceScore = JsNum.fin (100 * max p0 p1) ∧
      c.label = classes.get? i ∧
      [p0, p1].get? i = some (max p0 p1) ∧
      (∀ j, j < i → [p0, p1].get? j ≠ some (max p0 p1)) ∧
      (p0 = p1 → c.label = some "Cancer") := by
  have hrun : (predictClassification env (some image) w).1 = classify [p0, p1] := by
    simp [predictClassification, hdec, hpred]
  rw [hrun, classify_pair]
  by_cases h : p0 < p1
  · refine ⟨_, 1, rfl, ?_, by simp [h], ?_, ?_, ?_⟩
    · simp [h, max_eq_right h.le, mul_comm]
    · simp [max_eq_right h.le]
    · intro j hj
      have hj0 : j = 0 := by omega
      subst hj0
      simp [max_eq_right h.le, h.ne]
    · intro he
      exact absurd he h.ne
  · refine ⟨_, 0, rfl, ?_, by simp [h], ?_, ?_, ?_⟩
    · simp [h, max_eq_left (not_lt.mp h), mul_comm]
    · simp [max_eq_left (not_lt.mp h)]
    · intro j hj
      omega
    · intro _
      simp [h, classes]

/-- Evaluation of C7 on the tie `[1/2, 1/2]`: label "Cancer", confidence 50. -/
theorem predictClassification_argmax_witness :
    ∃ c i, (predictClassification (envWith [1/2, 1/2]) (some [255, 216]) emptyWorld).1
        = Except.ok c ∧
      c.confidenceScore = JsNum.fin (100 * max (1/2) (1/2)) ∧
      c.label = classes.get? i ∧
      [(1/2 : ℚ), 1/2].get? i = some (max (1/2) (1/2)) ∧
      (∀ j, j < i → [(1/2 : ℚ), 1/2].get? j ≠ some (max (1/2) (1/2))) ∧
      ((1/2 : ℚ) = 1/2 → c.label = some "Cancer") :=
  predictClassification_argmax (envWith [1/2, 1/2]) [255, 216] emptyWorld [] (1/2) (1/2) rfl rfl

/-- C8: when the model answers two scores, each in `[0, 1]`, `predictClassification`
returns, its label is "Cancer" or "Non Cancer" (the index into the class list is
in bounds), its suggestion is defined, and its confidence score is a finite
number in `[0, 100]`. -/
theorem predictClassification_range (env : Env) (image : Buffer) (w : World) (t : Tensor)
    (p0 p1 : ℚ) (hdec : env.decodeJpeg image = Except.ok t)
    (hpred : env.predict t = Except.ok [p0, p1])
    (h0 : 0 ≤ p0 ∧ p0 ≤ 1) (h1 : 0 ≤ p1 ∧ p1 ≤ 1) :
    ∃ c q s, (predictClassification env (some image) w).1 = Except.ok c ∧
      (c.label = some "Cancer" ∨ c.label = some "Non Cancer") ∧
      c.suggestion = some s ∧
      c.confidenceScore = JsNum.fin q ∧ 0 ≤ q ∧ q ≤ 100 := by
  have hrun : (predictClassification env (some image) w).1 = classify [p0, p1] := by
    simp [predictClassification, hdec, hpred]
  rw [hrun, classify_pair]
  by_cases h : p0 < p1
  · refine ⟨_, p1 * 100, "Tidak perlu periksa ke dokter!", rfl, Or.inr ?_, ?_, ?_, ?_, ?_⟩
    · simp [h, classes]
    · simp [h, classes, suggestionOf]
    · simp [h]
    · linarith [h1.1]
    · linarith [h1.2]
  · refine ⟨_, p0 * 100, "Segera periksa ke dokter!", rfl, Or.inl ?_, ?_, ?_, ?_, ?_⟩
    · simp [h, classes]
    · simp [h, classes, suggestionOf]
    · simp [h]
    · linarith [h0.1]
    · linarith [h0.2]

/-- Evaluation of C8 on the model output `[0, 1]`. -/
theorem predictClassification_range_witness :
    ∃ c q s, (predictClassification (envWith [0, 1]) (some [255, 216]) emptyWorld).1
        = Except.ok c ∧
      (c.label = some "Cancer" ∨ c.label = some "Non Cancer") ∧
      c.suggestion = some s ∧
      c.confidenceScore = JsNum.fin q ∧ 0 ≤ q ∧ q ≤ 100 :=
  predictClassification_range (envWith [0, 1]) [255, 216] emptyWorld [] 0 1 rfl rfl
    (by norm_num) (by norm_num)

/-! ## The stored document -/

/-- C9, as stated, fails: after a successful request the document stored under
the generated identifier has the four fields `id`, `result`, `suggestion`,
`createdAt`; the `id` field is inside the document. -/
theorem stored_document_contains_id :
    (handler (envWith [1, 0]) smallRequest emptyWorld).1.code = 201 ∧
      ((handler (envWith [1, 0]) smallRequest emptyWorld).2.store "predictions"
        "7c9e6679-7425-40de-944b-e07fc1f90ae7").map Obj.keys
        = some ["id", "result", "suggestion", "createdAt"] ∧
      (some ["id", "result", "suggestion", "createdAt"] : Option (List String))
        ≠ some ["result", "suggestion", "createdAt"] := by
  have hrun := handler_eval (envWith [1, 0]) smallRequest emptyWorld [255, 216] _ rfl (by decide)
    predictClassification_one_zero rfl emptyWorld
  rw [hrun]
  refine ⟨rfl, ?_, by decide⟩
  simp [Store.set, envWith, responseData, Obj.keys]

/-- C9 amended: after every request answered 201, the `predictions` collection
holds, under the generated identifier, the object sent as `data` in the response:
its fields are exactly `id`, `result`, `suggestion`, `createdAt`, and its `id`
field is the key itself. -/
theorem stored_document (env : Env) (request : Request) (w : World)
    (h : (handler env request w).1.code = 201) :
    ∃ data, (handler env request w).1.body.data = some data ∧
      (handler env request w).2.store "predictions" env.randomUUID = some data ∧
      data.keys = ["id", "result", "suggestion", "createdAt"] ∧
      data.get "id" = JsVal.str env.randomUUID := by
  obtain ⟨image, c, himg, hlen, hpc, hset⟩ := handler_201_inv h
  rw [handler_eval env request w image c himg hlen hpc hset w]
  exact ⟨_, rfl, by simp [Store.set], rfl, rfl⟩

/-- Evaluation of the amended C9 on a request answered 201. -/
theorem stored_document_witness :
    ∃ data, (handler (envWith [0, 1]) smallRequest emptyWorld).1.body.data = some data ∧
      (handler (envWith [0, 1]) smallRequest emptyWorld).2.store "predictions"
        (envWith [0, 1]).randomUUID = some data ∧
      data.keys = ["id", "result", "suggestion", "createdAt"] ∧
      data.get "id" = JsVal.str (envWith [0, 1]).randomUUID :=
  stored_document (envWith [0, 1]) smallRequest emptyWorld (by
    rw [handler_eval (envWith [0, 1]) smallRequest emptyWorld [255, 216] _ rfl (by decide)
      predictClassification_zero_one rfl emptyWorld])

/-- C10: in every run of `postPredictHandler` that returns, exactly one Firestore
write has been performed when the response is returned, to the key `data.id` of
that response in `predictions`; reading the key back gives the `result`,
`suggestion` and `createdAt` of the response (`createdAt` being the string read
from the clock), and every other key of the database is as before. -/
theorem postPredictHandler_single_write (env : Env) (request : Request) (predictionID : String)
    (w w2 : World) (response : Body)
    (h : postPredictHandler env request predictionID w = (Except.ok response, w2)) :
    ∃ data evs doc, response.data = some data ∧
      data.get "id" = JsVal.str predictionID ∧
      w2.trace = w.trace ++ evs ∧
      evs.filter Event.isDocSet = [Event.docSet "predictions" predictionID data] ∧
      w2.store "predictions" predictionID = some doc ∧
      doc.get "result" = data.get "result" ∧
      doc.get "suggestion" = data.get "suggestion" ∧
      doc.get "createdAt" = data.get "createdAt" ∧
      data.get "createdAt" = JsVal.str env.now ∧
      (∀ coll key, ¬ (coll = "predictions" ∧ key = predictionID) →
        w2.store coll key = w.store coll key) := by
  obtain ⟨c, w1, hpc, -, hresp, hw2⟩ := postPredictHandler_ok h
  obtain ⟨bytes, tensor, score, -, -, -, -, hw1⟩ := predictClassification_ok hpc
  subst hresp hw2 hw1
  refine ⟨responseData predictionID c env.now,
    [Event.decodeJpeg request.payload.image, Event.modelPredict,
      Event.docSet "predictions" predictionID (responseData predictionID c env.now)],
    responseData predictionID c env.now, rfl, rfl, ?_, rfl, ?_, rfl, rfl, rfl, rfl, ?_⟩
  · simp [World.emit]
  · simp [Store.set]
  · intro coll key hne
    simp [Store.set, World.emit, hne]

/-- Evaluation of C10 for the model output `[1, 0]` and the identifier "id-1". -/
theorem postPredictHandler_single_write_witness :
    ∃ data evs doc,
      (postPredictHandler (envWith [1, 0]) smallRequest "id-1" emptyWorld).1
        = Except.ok { status := "success", message := "Model is predicted successfully.",
                      data := some data } ∧
      data.get "id" = JsVal.str "id-1" ∧
      (postPredictHandler (envWith [1, 0]) smallRequest "id-1" emptyWorld).2.trace
        = emptyWorld.trace ++ evs ∧
      evs.filter Event.isDocSet = [Event.docSet "predictions" "id-1" data] ∧
      (postPredictHandler (envWith [1, 0]) smallRequest "id-1" emptyWorld).2.store
        "predictions" "id-1" = some doc ∧
      doc.get "createdAt" = JsVal.str "2024-06-01T10:00:00.000Z" := by
  have hrun := postPredictHandler_eval (envWith [1, 0]) smallRequest emptyWorld _ "id-1"
    predictClassification_one_zero rfl emptyWorld
  obtain ⟨data, evs, doc, h1, h2, h3, h4, h5, -, -, h8, h9, -⟩ :=
    postPredictHandler_single_write _ _ _ _ _ _ hrun
  simp only at h1
  obtain rfl := Option.some.inj h1
  refine ⟨_, evs, doc, ?_, h2, ?_, h4, ?_, ?_⟩
  · rw [hrun]
    norm_num [messageOf, JsNum.gt]
  · rw [hrun]
    exact h3
  · rw [hrun]
    exact h5
  · rw [h8]
    rfl

end Asclepius
